import Mathlib

/-!
Verification of the system-metrics repository's core pipeline:
threshold evaluation, alert cooldown and routing, bounded-retry
delivery, and the ingestion store with its HTTP endpoint.

Each definition is a shallow embedding of the corresponding Python
function; machine effects (network sends, SQLite writes, JSON
serialization) are threaded through explicit oracles/state so the
control flow of the source is preserved exactly.
-/

namespace Metrics

/-! ## Threshold evaluator (metric_collector/collector.py, check_alerts)

A snapshot field that is absent from the metrics dict is `none`; a
`percent` sub-key that is absent is `none` inside the block (the code
reads it with `.get('percent', 0)`, i.e. default 0, except for disk
entries, which are skipped entirely when `'percent'` is missing). -/

structure CpuBlock where
  percent : Option ℚ
deriving Repr, DecidableEq

structure MemoryBlock where
  percent : Option ℚ
deriving Repr, DecidableEq

structure SwapBlock where
  percent : Option ℚ
deriving Repr, DecidableEq

structure DiskEntry where
  mountpoint : String
  percent : Option ℚ
deriving Repr, DecidableEq

structure Snapshot where
  cpu : Option CpuBlock
  memory : Option MemoryBlock
  swap : Option SwapBlock
  disk : Option (List DiskEntry)
deriving Repr, DecidableEq

structure Thresholds where
  cpu : Option ℚ
  memory : Option ℚ
  disk : Option ℚ
  swap : Option ℚ
deriving Repr, DecidableEq

inductive AlertEvent
  | cpu (percent threshold : ℚ)
  | memory (percent threshold : ℚ)
  | disk (mountpoint : String) (percent threshold : ℚ)
  | swap (percent threshold : ℚ)
deriving Repr, DecidableEq

/-- The `for disk in metrics['disk']` loop of `check_alerts`: one alert
per entry whose `percent` key is present and strictly above the
threshold. -/
def diskAlerts (t : ℚ) : List DiskEntry → List AlertEvent
  | [] => []
  | d :: ds =>
    (match d.percent with
     | some p => if p > t then [AlertEvent.disk d.mountpoint p t] else []
     | none => []) ++ diskAlerts t ds

def cpuAlerts (th : Thresholds) (m : Snapshot) : List AlertEvent :=
  match th.cpu, m.cpu with
  | some t, some c => if c.percent.getD 0 > t then [AlertEvent.cpu (c.percent.getD 0) t] else []
  | _, _ => []

def memoryAlerts (th : Thresholds) (m : Snapshot) : List AlertEvent :=
  match th.memory, m.memory with
  | some t, some b => if b.percent.getD 0 > t then [AlertEvent.memory (b.percent.getD 0) t] else []
  | _, _ => []

def diskAlertsOf (th : Thresholds) (m : Snapshot) : List AlertEvent :=
  match th.disk, m.disk with
  | some t, some ds => diskAlerts t ds
  | _, _ => []

def swapAlerts (th : Thresholds) (m : Snapshot) : List AlertEvent :=
  match th.swap, m.swap with
  | some t, some b => if b.percent.getD 0 > t then [AlertEvent.swap (b.percent.getD 0) t] else []
  | _, _ => []

/-- Embeds `check_alerts`: gated on `alerts.enabled`, then the four family
checks append their triggered alerts in source order
(cpu, memory, disk per mount, swap). -/
def check_alerts (alertsEnabled : Bool) (th : Thresholds) (m : Snapshot) : List AlertEvent :=
  if !alertsEnabled then [] else
    cpuAlerts th m ++ memoryAlerts th m ++ diskAlertsOf th m ++ swapAlerts th m

/-- Constructor family of an alert event, used to separate the four
blocks of `check_alerts`. -/
def famOf : AlertEvent → ℕ
  | AlertEvent.cpu _ _ => 0
  | AlertEvent.memory _ _ => 1
  | AlertEvent.disk _ _ _ => 2
  | AlertEvent.swap _ _ => 3

def AlertEvent.isDisk : AlertEvent → Bool
  | AlertEvent.disk _ _ _ => true
  | _ => false

def overThreshold (t : ℚ) (d : DiskEntry) : Bool :=
  match d.percent with
  | some p => decide (p > t)
  | none => false

/-! ## Alert deduper/router (alerts/slack_webhook.py, AlertManager)

The `alert_history` dict maps the dedup key, the string
hostname ++ ":" ++ alert_type, to the last-fired time; times are rationals counting seconds (the code
compares `timedelta.total_seconds()` against `cooldown_minutes * 60`).
Whether a concrete channel send raises is an oracle `chanOk`. -/

def dedupKey (hostname alert_type : String) : String :=
  hostname ++ ":" ++ alert_type

def histLookup : List (String × ℚ) → String → Option ℚ
  | [], _ => none
  | (k, v) :: rest, key => if k = key then some v else histLookup rest key

/-- Python dict assignment: overwrite the key when present, else add it. -/
def histInsert : List (String × ℚ) → String → ℚ → List (String × ℚ)
  | [], key, v => [(key, v)]
  | (k, w) :: rest, key, v =>
    if k = key then (k, v) :: rest else (k, w) :: histInsert rest key v

/-- Embeds `_is_in_cooldown`: true iff the key has fired before and strictly
less than `cooldown_minutes * 60` seconds have elapsed since. -/
def is_in_cooldown (cooldownMinutes : ℚ) (hist : List (String × ℚ))
    (alert_type hostname : String) (now : ℚ) : Bool :=
  match histLookup hist (dedupKey hostname alert_type) with
  | some last => decide (now - last < cooldownMinutes * 60)
  | none => false

inductive Channel
  | slack
  | email
  | webhook
  | log
  | unknown (name : String)
deriving Repr, DecidableEq

/-- The four names the channel loop dispatches on; any other name only
logs a warning and attempts no send. -/
def channelKnown : Channel → Bool
  | Channel.unknown _ => false
  | _ => true

/-- One iteration of the channel loop: a known channel's send is
attempted (an exception, `chanOk c = false`, sets `success = False` and
is otherwise swallowed); an unknown channel changes nothing. -/
def routeStep (chanOk : Channel → Bool) (acc : Bool × List Channel) (c : Channel) :
    Bool × List Channel :=
  if channelKnown c then (acc.1 && chanOk c, acc.2 ++ [c]) else acc

structure SendAlertResult where
  fired : Bool
  success : Bool
  attempted : List Channel
  history : List (String × ℚ)
deriving Repr, DecidableEq

/-- Embeds `AlertManager.send_alert`: suppress (returning early, no history
update, no sends) when in cooldown; otherwise record "now" in the
history and loop over every configured channel. -/
def send_alert (cooldownMinutes : ℚ) (channels : List Channel) (chanOk : Channel → Bool)
    (hist : List (String × ℚ)) (alert_type hostname : String) (now : ℚ) : SendAlertResult :=
  if is_in_cooldown cooldownMinutes hist alert_type hostname now then
    { fired := false, success := false, attempted := [], history := hist }
  else
    let hist2 := histInsert hist (dedupKey hostname alert_type) now
    let r := channels.foldl (routeStep chanOk) (true, [])
    { fired := true, success := r.1, attempted := r.2, history := hist2 }

/-! ## Delivery client (metric_collector/collector.py, send_metrics)

Each loop iteration either succeeds, raises a
`requests.exceptions.RequestException` (transport-level: retried unless
it was the last attempt), or raises some other exception before the
network call (e.g. payload serialization: caught by the generic handler,
which breaks out of the loop). The oracle `outcomes` gives attempt i's
outcome; the result pairs the returned boolean with the number of
network calls made. -/

inductive AttemptOutcome
  | success
  | transportError
  | localError
deriving Repr, DecidableEq

def sendMetricsLoop (outcomes : ℕ → AttemptOutcome) : ℕ → ℕ → Bool × ℕ
  | _, 0 => (false, 0)
  | i, rem + 1 =>
    match outcomes i with
    | AttemptOutcome.success => (true, 1)
    | AttemptOutcome.transportError =>
      if rem > 0 then
        let r := sendMetricsLoop outcomes (i + 1) rem
        (r.1, r.2 + 1)
      else (false, 1)
    | AttemptOutcome.localError => (false, 0)

/-- Embeds `send_metrics`: `for attempt in range(max_retries)` with the
try/except structure above; returns `False` after the loop when no
attempt returned `True`. -/
def send_metrics (outcomes : ℕ → AttemptOutcome) (maxRetries : ℕ) : Bool × ℕ :=
  sendMetricsLoop outcomes 0 maxRetries

/-! ## Collection scheduler (metric_collector/collector.py, run) -/

/-- Computes `sleep_time = max(0, interval_seconds - elapsed_time)`. -/
def sleep_time (intervalSeconds elapsed : ℚ) : ℚ :=
  max 0 (intervalSeconds - elapsed)

inductive CycleEnd
  | slept (duration : ℚ)
  | warned
deriving Repr, DecidableEq

/-- End of one scheduler cycle: `if sleep_time > 0: time.sleep(...)
else: logger.warning(...)` — either way the loop immediately proceeds
to the next cycle. -/
def cycle_end (intervalSeconds elapsed : ℚ) : CycleEnd :=
  if sleep_time intervalSeconds elapsed > 0 then
    CycleEnd.slept (sleep_time intervalSeconds elapsed)
  else
    CycleEnd.warned

/-! ## Ingestion payload validation (cloud_ingestion/server.py, pydantic models)

The `Field` bounds of the pydantic models, plus the `timestamp`
validator. Whether `datetime.fromisoformat` accepts a string is left as
an uninterpreted predicate `parseTs`; every claim below holds for all
parsers. -/

structure CPUMetrics where
  percent : ℚ
  count : ℤ
  count_logical : ℤ
  load_avg : Option (List ℚ)
deriving Repr, DecidableEq

structure MemoryMetrics where
  total : ℤ
  available : ℤ
  percent : ℚ
  used : ℤ
  free : ℤ
  buffers : ℤ
  cached : ℤ
deriving Repr, DecidableEq

structure SwapMetrics where
  total : ℤ
  used : ℤ
  free : ℤ
  percent : ℚ
deriving Repr, DecidableEq

structure DiskMetrics where
  device : String
  mountpoint : String
  fstype : String
  total : ℤ
  used : ℤ
  free : ℤ
  percent : ℚ
deriving Repr, DecidableEq

structure NetworkMetrics where
  bytes_sent : ℤ
  bytes_recv : ℤ
  packets_sent : ℤ
  packets_recv : ℤ
  errin : ℤ
  errout : ℤ
  dropin : ℤ
  dropout : ℤ
deriving Repr, DecidableEq

structure ProcessMetrics where
  pid : ℤ
  name : String
  cpu_percent : ℚ
  memory_percent : ℚ
deriving Repr, DecidableEq

structure SystemMetrics where
  timestamp : String
  hostname : String
  cpu : CPUMetrics
  memory : MemoryMetrics
  swap : SwapMetrics
  disk : List DiskMetrics
  network : Option NetworkMetrics
  top_processes : Option (List ProcessMetrics)
  error : Option String
deriving Repr, DecidableEq

structure MetricsPayload where
  hostname : String
  metrics : SystemMetrics
deriving Repr, DecidableEq

def validCPU (c : CPUMetrics) : Bool :=
  decide (0 ≤ c.percent) && decide (c.percent ≤ 100) &&
  decide (0 < c.count) && decide (0 < c.count_logical)

def validMemory (m : MemoryMetrics) : Bool :=
  decide (0 < m.total) && decide (0 ≤ m.available) &&
  decide (0 ≤ m.percent) && decide (m.percent ≤ 100) &&
  decide (0 ≤ m.used) && decide (0 ≤ m.free) &&
  decide (0 ≤ m.buffers) && decide (0 ≤ m.cached)

def validSwap (s : SwapMetrics) : Bool :=
  decide (0 ≤ s.total) && decide (0 ≤ s.used) && decide (0 ≤ s.free) &&
  decide (0 ≤ s.percent) && decide (s.percent ≤ 100)

def validDisk (d : DiskMetrics) : Bool :=
  decide (0 < d.total) && decide (0 ≤ d.used) && decide (0 ≤ d.free) &&
  decide (0 ≤ d.percent) && decide (d.percent ≤ 100)

def validNetwork (n : NetworkMetrics) : Bool :=
  decide (0 ≤ n.bytes_sent) && decide (0 ≤ n.bytes_recv) &&
  decide (0 ≤ n.packets_sent) && decide (0 ≤ n.packets_recv) &&
  decide (0 ≤ n.errin) && decide (0 ≤ n.errout) &&
  decide (0 ≤ n.dropin) && decide (0 ≤ n.dropout)

def validProcess (p : ProcessMetrics) : Bool :=
  decide (0 ≤ p.cpu_percent) &&
  decide (0 ≤ p.memory_percent) && decide (p.memory_percent ≤ 100)

def validSystemMetrics (parseTs : String → Bool) (s : SystemMetrics) : Bool :=
  parseTs s.timestamp && validCPU s.cpu && validMemory s.memory && validSwap s.swap &&
  s.disk.all validDisk && s.network.all validNetwork &&
  s.top_processes.all (fun l => l.all validProcess)

def validPayload (parseTs : String → Bool) (p : MetricsPayload) : Bool :=
  decide (1 ≤ p.hostname.length) && decide (p.hostname.length ≤ 255) &&
  validSystemMetrics parseTs p.metrics

/-! ## Ingestion store (cloud_ingestion/server.py, MetricsDatabase)

A connection carries committed rows plus the pending writes of the open
transaction; `_get_connection` rolls the transaction back on any
exception. `serOk` is the oracle for the `json.dumps` serialization
step, `insertOk` for the `INSERT`/`commit`. -/

structure StoredMetricRow where
  id : ℕ
  timestamp : String
  hostname : String
  cpu_percent : ℚ
  memory_percent : ℚ
  memory_total : ℤ
  memory_used : ℤ
  swap_percent : ℚ
  disk_data : List DiskMetrics
  network_data : Option NetworkMetrics
  raw_data : MetricsPayload
deriving Repr, DecidableEq

structure DbState where
  rows : List StoredMetricRow
  nextId : ℕ
deriving Repr, DecidableEq

structure Conn where
  committed : List StoredMetricRow
  pending : List StoredMetricRow
deriving Repr, DecidableEq

def connExecInsert (c : Conn) (r : StoredMetricRow) : Conn :=
  { c with pending := c.pending ++ [r] }

def connCommit (c : Conn) : Conn :=
  { committed := c.committed ++ c.pending, pending := [] }

def connRollback (c : Conn) : Conn :=
  { c with pending := [] }

/-- The row built by the `INSERT INTO metrics (...)` statement. -/
def rowOfPayload (id : ℕ) (p : MetricsPayload) : StoredMetricRow :=
  { id := id
    timestamp := p.metrics.timestamp
    hostname := p.hostname
    cpu_percent := p.metrics.cpu.percent
    memory_percent := p.metrics.memory.percent
    memory_total := p.metrics.memory.total
    memory_used := p.metrics.memory.used
    swap_percent := p.metrics.swap.percent
    disk_data := p.metrics.disk
    network_data := p.metrics.network
    raw_data := p }

/-- Embeds `store_metrics`: serialize, insert, commit inside one locked
connection; any exception rolls the open transaction back and the
function returns `False`. -/
def store_metrics (serOk insertOk : Bool) (db : DbState) (p : MetricsPayload) :
    Bool × DbState :=
  let conn : Conn := { committed := db.rows, pending := [] }
  if !serOk then
    (false, { db with rows := (connRollback conn).committed })
  else if !insertOk then
    (false, { db with rows := (connRollback conn).committed })
  else
    let conn2 := connExecInsert conn (rowOfPayload db.nextId p)
    let conn3 := connCommit conn2
    (true, { rows := conn3.committed, nextId := db.nextId + 1 })

/-! ## Ingestion write endpoint (cloud_ingestion/server.py, ingest_metrics) -/

structure HTTPError where
  status : ℕ
  detail : String
deriving Repr, DecidableEq

/-- Body of the `try:` block of `ingest_metrics`: a failed store raises
`HTTPException(status_code=500, ...)`. -/
def ingest_body (serOk insertOk : Bool) (db : DbState) (p : MetricsPayload) :
    Except HTTPError DbState :=
  let r := store_metrics serOk insertOk db p
  if r.1 then Except.ok r.2
  else Except.error { status := 500, detail := "Failed to store metrics" }

/-- Embeds `ingest_metrics`: the `except Exception` handler catches every
exception from the body — including the 500 `HTTPException` just raised
— and re-raises `HTTPException(status_code=400, detail=str(e))`. -/
def ingest_metrics (serOk insertOk : Bool) (db : DbState) (p : MetricsPayload) :
    ℕ × DbState :=
  match ingest_body serOk insertOk db p with
  | Except.ok db2 => (200, db2)
  | Except.error _ => (400, db)

structure IngestOutcome where
  status : ℕ
  storeInvoked : Bool
  db : DbState
deriving Repr, DecidableEq

/-- The full `/ingest` route: FastAPI/pydantic validates the request
body first and rejects invalid payloads with a 422 response before the
endpoint function (and hence the store) ever runs. -/
def ingest_endpoint (parseTs : String → Bool) (serOk insertOk : Bool)
    (db : DbState) (p : MetricsPayload) : IngestOutcome :=
  if validPayload parseTs p then
    let r := ingest_metrics serOk insertOk db p
    { status := r.1, storeInvoked := true, db := r.2 }
  else
    { status := 422, storeInvoked := false, db := db }

/-! ## Concrete fixtures used by witness theorems -/

def th0 : Thresholds :=
  { cpu := some 80, memory := some 80, disk := some 90, swap := some 80 }

def m0 : Snapshot :=
  { cpu := some { percent := some 85 }
    memory := some { percent := some 80 }
    swap := some { percent := some 10 }
    disk := some [{ mountpoint := "/", percent := some 95 },
                  { mountpoint := "/home", percent := some 50 }] }

def thNone : Thresholds :=
  { cpu := none, memory := none, disk := none, swap := none }

def outcomesSucceedAt3 : ℕ → AttemptOutcome :=
  fun i => if i < 2 then AttemptOutcome.transportError else AttemptOutcome.success

def outcomesAllFail : ℕ → AttemptOutcome :=
  fun _ => AttemptOutcome.transportError

def outcomesLocalFirst : ℕ → AttemptOutcome :=
  fun _ => AttemptOutcome.localError

def chanOkNoSlack : Channel → Bool
  | Channel.slack => false
  | _ => true

def parseTsAlways : String → Bool := fun _ => true

def sampleSystemMetrics : SystemMetrics :=
  { timestamp := "2026-10-12T00:00:00+00:00"
    hostname := "host-a"
    cpu := { percent := 50, count := 4, count_logical := 8, load_avg := none }
    memory := { total := 16000000, available := 8000000, percent := 50,
                used := 8000000, free := 8000000, buffers := 0, cached := 0 }
    swap := { total := 0, used := 0, free := 0, percent := 0 }
    disk := [{ device := "/dev/sda1", mountpoint := "/", fstype := "ext4",
               total := 100000, used := 50000, free := 50000, percent := 50 }]
    network := none
    top_processes := none
    error := none }

def samplePayloadValid : MetricsPayload :=
  { hostname := "host-a", metrics := sampleSystemMetrics }

/-- Same payload with an out-of-range `cpu.percent` (violates
`Field(..., ge=0, le=100)`). -/
def samplePayloadInvalid : MetricsPayload :=
  { hostname := "host-a"
    metrics := { sampleSystemMetrics with
                   cpu := { percent := 150, count := 4, count_logical := 8, load_avg := none } } }

def sampleDb : DbState := { rows := [], nextId := 1 }

lemma check_alerts_true (th : Thresholds) (m : Snapshot) :
    check_alerts true th m =
      cpuAlerts th m ++ memoryAlerts th m ++ diskAlertsOf th m ++ swapAlerts th m := rfl

lemma famOf_mem_cpuAlerts {th m e} (h : e ∈ cpuAlerts th m) : famOf e = 0 := by
  unfold cpuAlerts at h
  split at h <;> simp_all
  rfl

lemma famOf_mem_memoryAlerts {th m e} (h : e ∈ memoryAlerts th m) : famOf e = 1 := by
  unfold memoryAlerts at h
  split at h <;> simp_all
  rfl

lemma famOf_mem_diskAlerts {t e} : ∀ {ds : List DiskEntry}, e ∈ diskAlerts t ds → famOf e = 2 := by
  intro ds
  induction ds with
  | nil => simp [diskAlerts]
  | cons d ds ih =>
    intro h
    simp only [diskAlerts, List.mem_append] at h
    rcases h with h | h
    · rcases hp : d.percent with _ | p <;> rw [hp] at h
      · simp at h
      · split at h <;> simp_all [famOf]
    · exact ih h

lemma famOf_mem_diskAlertsOf {th m e} (h : e ∈ diskAlertsOf th m) : famOf e = 2 := by
  unfold diskAlertsOf at h
  split at h
  · exact famOf_mem_diskAlerts h
  · simp at h

lemma famOf_mem_swapAlerts {th m e} (h : e ∈ swapAlerts th m) : famOf e = 3 := by
  unfold swapAlerts at h
  split at h <;> simp_all
  rfl

lemma mem_check_alerts_cpu {th m p t} :
    AlertEvent.cpu p t ∈ check_alerts true th m ↔ AlertEvent.cpu p t ∈ cpuAlerts th m := by
  rw [check_alerts_true]
  simp only [List.mem_append]
  constructor
  · rintro (((h | h) | h) | h)
    · exact h
    · exact absurd (famOf_mem_memoryAlerts h) (by simp [famOf])
    · exact absurd (famOf_mem_diskAlertsOf h) (by simp [famOf])
    · exact absurd (famOf_mem_swapAlerts h) (by simp [famOf])
  · intro h; exact Or.inl (Or.inl (Or.inl h))

lemma mem_check_alerts_memory {th m p t} :
    AlertEvent.memory p t ∈ check_alerts true th m ↔ AlertEvent.memory p t ∈ memoryAlerts th m := by
  rw [check_alerts_true]
  simp only [List.mem_append]
  constructor
  · rintro (((h | h) | h) | h)
    · exact absurd (famOf_mem_cpuAlerts h) (by simp [famOf])
    · exact h
    · exact absurd (famOf_mem_diskAlertsOf h) (by simp [famOf])
    · exact absurd (famOf_mem_swapAlerts h) (by simp [famOf])
  · intro h; exact Or.inl (Or.inl (Or.inr h))

lemma mem_check_alerts_swap {th m p t} :
    AlertEvent.swap p t ∈ check_alerts true th m ↔ AlertEvent.swap p t ∈ swapAlerts th m := by
  rw [check_alerts_true]
  simp only [List.mem_append]
  constructor
  · rintro (((h | h) | h) | h)
    · exact absurd (famOf_mem_cpuAlerts h) (by simp [famOf])
    · exact absurd (famOf_mem_memoryAlerts h) (by simp [famOf])
    · exact absurd (famOf_mem_diskAlertsOf h) (by simp [famOf])
    · exact h
  · intro h; exact Or.inr h

lemma mem_check_alerts_disk {th m mp p t} :
    AlertEvent.disk mp p t ∈ check_alerts true th m ↔
      AlertEvent.disk mp p t ∈ diskAlertsOf th m := by
  rw [check_alerts_true]
  simp only [List.mem_append]
  constructor
  · rintro (((h | h) | h) | h)
    · exact absurd (famOf_mem_cpuAlerts h) (by simp [famOf])
    · exact absurd (famOf_mem_memoryAlerts h) (by simp [famOf])
    · exact h
    · exact absurd (famOf_mem_swapAlerts h) (by simp [famOf])
  · intro h; exact Or.inl (Or.inr h)

lemma mem_diskAlerts_of_over {t : ℚ} {p : ℚ} {d : DiskEntry} :
    ∀ {ds : List DiskEntry}, d ∈ ds → d.percent = some p → p > t →
      AlertEvent.disk d.mountpoint p t ∈ diskAlerts t ds := by
  intro ds
  induction ds with
  | nil => simp
  | cons a as ih =>
    intro hmem hp hgt
    simp only [diskAlerts, List.mem_append]
    rcases List.mem_cons.mp hmem with h | h
    · subst h
      left
      rw [hp]
      simp [hgt]
    · exact Or.inr (ih h hp hgt)

lemma gt_of_mem_diskAlerts {t : ℚ} {mp : String} {p q : ℚ} :
    ∀ {ds : List DiskEntry}, AlertEvent.disk mp p q ∈ diskAlerts t ds → q = t ∧ p > t := by
  intro ds
  induction ds with
  | nil => simp [diskAlerts]
  | cons a as ih =>
    intro h
    simp only [diskAlerts, List.mem_append] at h
    rcases h with h | h
    · rcases hp : a.percent with _ | r <;> rw [hp] at h
      · simp at h
      · dsimp only at h
        by_cases hr : r > t
        · rw [if_pos hr] at h
          have heq := List.mem_singleton.mp h
          injection heq with h1 h2 h3
          subst h2; subst h3
          exact ⟨rfl, hr⟩
        · rw [if_neg hr] at h
          simp at h
    · exact ih h

lemma countP_diskAlerts (t : ℚ) :
    ∀ ds : List DiskEntry, (diskAlerts t ds).countP AlertEvent.isDisk = ds.countP (overThreshold t) := by
  intro ds
  induction ds with
  | nil => simp [diskAlerts]
  | cons d ds ih =>
    simp only [diskAlerts, List.countP_append, List.countP_cons, ih]
    rcases hp : d.percent with _ | p
    · simp [overThreshold, hp]
    · simp only [overThreshold, hp]
      split
      · simp only [List.countP_cons, List.countP_nil, AlertEvent.isDisk]
        simp_all
        omega
      · simp_all

lemma countP_isDisk_cpuAlerts {th m} : (cpuAlerts th m).countP AlertEvent.isDisk = 0 := by
  rw [List.countP_eq_zero]
  intro e he
  have := famOf_mem_cpuAlerts he
  cases e <;> simp_all [famOf, AlertEvent.isDisk]

lemma countP_isDisk_memoryAlerts {th m} : (memoryAlerts th m).countP AlertEvent.isDisk = 0 := by
  rw [List.countP_eq_zero]
  intro e he
  have := famOf_mem_memoryAlerts he
  cases e <;> simp_all [famOf, AlertEvent.isDisk]

lemma countP_isDisk_swapAlerts {th m} : (swapAlerts th m).countP AlertEvent.isDisk = 0 := by
  rw [List.countP_eq_zero]
  intro e he
  have := famOf_mem_swapAlerts he
  cases e <;> simp_all [famOf, AlertEvent.isDisk]

lemma histLookup_histInsert_self (h : List (String × ℚ)) (k : String) (v : ℚ) :
    histLookup (histInsert h k v) k = some v := by
  induction h with
  | nil => simp [histInsert, histLookup]
  | cons a rest ih =>
    obtain ⟨ka, va⟩ := a
    by_cases hk : ka = k
    · simp [histInsert, histLookup, hk]
    · simp [histInsert, histLookup, hk, ih]

lemma send_alert_suppressed (cd : ℚ) (channels : List Channel) (ok : Channel → Bool)
    (hist : List (String × ℚ)) (alert_type hostname : String) (now : ℚ)
    (h : is_in_cooldown cd hist alert_type hostname now = true) :
    send_alert cd channels ok hist alert_type hostname now =
      { fired := false, success := false, attempted := [], history := hist } := by
  unfold send_alert
  rw [h]
  simp

lemma send_alert_fires (cd : ℚ) (channels : List Channel) (ok : Channel → Bool)
    (hist : List (String × ℚ)) (alert_type hostname : String) (now : ℚ)
    (h : is_in_cooldown cd hist alert_type hostname now = false) :
    send_alert cd channels ok hist alert_type hostname now =
      { fired := true
        success := (channels.foldl (routeStep ok) (true, [])).1
        attempted := (channels.foldl (routeStep ok) (true, [])).2
        history := histInsert hist (dedupKey hostname alert_type) now } := by
  unfold send_alert
  rw [h]
  simp

lemma is_in_cooldown_insert (cd : ℚ) (hist : List (String × ℚ))
    (alert_type hostname : String) (t0 now : ℚ) :
    is_in_cooldown cd (histInsert hist (dedupKey hostname alert_type) t0)
        alert_type hostname now =
      decide (now - t0 < cd * 60) := by
  unfold is_in_cooldown
  rw [histLookup_histInsert_self]

lemma foldl_routeStep (ok : Channel → Bool) :
    ∀ (cs : List Channel) (b : Bool) (l : List Channel),
      cs.foldl (routeStep ok) (b, l) =
        (b && (cs.filter channelKnown).all ok, l ++ cs.filter channelKnown) := by
  intro cs
  induction cs with
  | nil => intro b l; simp
  | cons c cs ih =>
    intro b l
    by_cases hc : channelKnown c
    · simp only [List.foldl_cons, routeStep, hc, if_true, List.filter_cons, ih]
      simp [hc, Bool.and_assoc]
    · simp only [List.foldl_cons, routeStep, hc, if_false, List.filter_cons, ih]
      simp [hc]

lemma sendMetricsLoop_le (outcomes : ℕ → AttemptOutcome) :
    ∀ (rem i : ℕ), (sendMetricsLoop outcomes i rem).2 ≤ rem := by
  intro rem
  induction rem with
  | zero => intro i; simp [sendMetricsLoop]
  | succ r ih =>
    intro i
    simp only [sendMetricsLoop]
    cases h : outcomes i with
    | success => simp
    | transportError =>
      by_cases hr : r > 0
      · simp only [if_pos hr]
        have := ih (i + 1)
        omega
      · simp only [if_neg hr]
        omega
    | localError => simp

lemma sendMetricsLoop_success (outcomes : ℕ → AttemptOutcome) :
    ∀ (k i rem : ℕ), k < rem →
      (∀ j, j < k → outcomes (i + j) = AttemptOutcome.transportError) →
      outcomes (i + k) = AttemptOutcome.success →
      sendMetricsLoop outcomes i rem = (true, k + 1) := by
  intro k
  induction k with
  | zero =>
    intro i rem hk hj hs
    obtain ⟨r, rfl⟩ : ∃ r, rem = r + 1 := ⟨rem - 1, by omega⟩
    simp only [sendMetricsLoop]
    rw [show i + 0 = i from rfl] at hs
    rw [hs]
  | succ k ih =>
    intro i rem hk hj hs
    obtain ⟨r, rfl⟩ : ∃ r, rem = r + 1 := ⟨rem - 1, by omega⟩
    have h0 : outcomes i = AttemptOutcome.transportError := by
      have := hj 0 (by omega)
      simpa using this
    simp only [sendMetricsLoop]
    rw [h0]
    have hr : r > 0 := by omega
    simp only [if_pos hr]
    have ihr : sendMetricsLoop outcomes (i + 1) r = (true, k + 1) := by
      refine ih (i + 1) r (by omega) ?_ ?_
      · intro j hjk
        have := hj (j + 1) (by omega)
        rwa [show i + (j + 1) = i + 1 + j by omega] at this
      · rwa [show i + (k + 1) = i + 1 + k by omega] at hs
    rw [ihr]

lemma sendMetricsLoop_allFail (outcomes : ℕ → AttemptOutcome) :
    ∀ (rem i : ℕ),
      (∀ j, j < rem → outcomes (i + j) = AttemptOutcome.transportError) →
      sendMetricsLoop outcomes i rem = (false, rem) := by
  intro rem
  induction rem with
  | zero => intro i _; rfl
  | succ r ih =>
    intro i hj
    have h0 : outcomes i = AttemptOutcome.transportError := by
      have := hj 0 (by omega)
      simpa using this
    simp only [sendMetricsLoop]
    rw [h0]
    by_cases hr : r > 0
    · simp only [if_pos hr]
      have ihr : sendMetricsLoop outcomes (i + 1) r = (false, r) := by
        refine ih (i + 1) ?_
        intro j hjr
        have := hj (j + 1) (by omega)
        rwa [show i + (j + 1) = i + 1 + j by omega] at this
      rw [ihr]
    · have : r = 0 := by omega
      subst this
      simp

lemma sendMetricsLoop_local (outcomes : ℕ → AttemptOutcome) :
    ∀ (k i rem : ℕ), k < rem →
      (∀ j, j < k → outcomes (i + j) = AttemptOutcome.transportError) →
      outcomes (i + k) = AttemptOutcome.localError →
      sendMetricsLoop outcomes i rem = (false, k) := by
  intro k
  induction k with
  | zero =>
    intro i rem hk hj hs
    obtain ⟨r, rfl⟩ : ∃ r, rem = r + 1 := ⟨rem - 1, by omega⟩
    simp only [sendMetricsLoop]
    rw [show i + 0 = i from rfl] at hs
    rw [hs]
  | succ k ih =>
    intro i rem hk hj hs
    obtain ⟨r, rfl⟩ : ∃ r, rem = r + 1 := ⟨rem - 1, by omega⟩
    have h0 : outcomes i = AttemptOutcome.transportError := by
      have := hj 0 (by omega)
      simpa using this
    simp only [sendMetricsLoop]
    rw [h0]
    have hr : r > 0 := by omega
    simp only [if_pos hr]
    have ihr : sendMetricsLoop outcomes (i + 1) r = (false, k) := by
      refine ih (i + 1) r (by omega) ?_ ?_
      · intro j hjk
        have := hj (j + 1) (by omega)
        rwa [show i + (j + 1) = i + 1 + j by omega] at this
      · rwa [show i + (k + 1) = i + 1 + k by omega] at hs
    rw [ihr]

/-- Claim C1: for an alert identity given by the dedup key
(hostname, alert_type), firing when not in cooldown delivers (fires,
channels attempted); firing the same identity again within the cooldown
window is suppressed with no side effect (nothing attempted, history
unchanged); firing again once the window has elapsed delivers a second
alert. -/
theorem cooldown_fire_suppress_refire
    (cd : ℚ) (channels : List Channel) (ok : Channel → Bool)
    (hist : List (String × ℚ)) (alert_type hostname : String) (t0 t1 t2 : ℚ)
    (h0 : is_in_cooldown cd hist alert_type hostname t0 = false)
    (h1 : t1 - t0 < cd * 60)
    (h2 : cd * 60 ≤ t2 - t0) :
    (send_alert cd channels ok hist alert_type hostname t0).fired = true ∧
    send_alert cd channels ok
        (send_alert cd channels ok hist alert_type hostname t0).history
        alert_type hostname t1 =
      { fired := false, success := false, attempted := []
        history := (send_alert cd channels ok hist alert_type hostname t0).history } ∧
    (send_alert cd channels ok
        (send_alert cd channels ok hist alert_type hostname t0).history
        alert_type hostname t2).fired = true := by
  have e1 := send_alert_fires cd channels ok hist alert_type hostname t0 h0
  have hh : (send_alert cd channels ok hist alert_type hostname t0).history =
      histInsert hist (dedupKey hostname alert_type) t0 := by rw [e1]
  have hc1 : is_in_cooldown cd
      (send_alert cd channels ok hist alert_type hostname t0).history
      alert_type hostname t1 = true := by
    rw [hh, is_in_cooldown_insert]
    exact decide_eq_true h1
  have hc2 : is_in_cooldown cd
      (send_alert cd channels ok hist alert_type hostname t0).history
      alert_type hostname t2 = false := by
    rw [hh, is_in_cooldown_insert]
    exact decide_eq_false (not_lt.mpr (by linarith))
  refine ⟨by rw [e1], ?_, ?_⟩
  · exact send_alert_suppressed cd channels ok _ alert_type hostname t1 hc1
  · rw [send_alert_fires cd channels ok _ alert_type hostname t2 hc2]

theorem cooldown_fire_suppress_refire_witness :
    (send_alert 5 [Channel.log] (fun _ => true) [] "cpu_high" "host-a" 0).fired = true ∧
    send_alert 5 [Channel.log] (fun _ => true)
        (send_alert 5 [Channel.log] (fun _ => true) [] "cpu_high" "host-a" 0).history
        "cpu_high" "host-a" 100 =
      { fired := false, success := false, attempted := []
        history := (send_alert 5 [Channel.log] (fun _ => true) [] "cpu_high" "host-a" 0).history } ∧
    (send_alert 5 [Channel.log] (fun _ => true)
        (send_alert 5 [Channel.log] (fun _ => true) [] "cpu_high" "host-a" 0).history
        "cpu_high" "host-a" 300).fired = true :=
  cooldown_fire_suppress_refire 5 [Channel.log] (fun _ => true) [] "cpu_high" "host-a"
    0 100 300 (by decide) (by norm_num) (by norm_num)

/-- Claim C2: `send_metrics` makes at most `max_retries` network
attempts; with k-1 transport failures followed by a success on attempt
k ≤ n it returns `True` after exactly k network attempts; with all n
attempts failing at transport level it returns `False` after n
attempts; a non-retryable local error (raised before the network call)
aborts immediately with `False`; in every case it returns a plain
boolean rather than raising. -/
theorem send_metrics_retry_spec (outcomes : ℕ → AttemptOutcome) (n : ℕ) :
    (send_metrics outcomes n).2 ≤ n ∧
    (∀ k, k < n → (∀ j, j < k → outcomes j = AttemptOutcome.transportError) →
      outcomes k = AttemptOutcome.success → send_metrics outcomes n = (true, k + 1)) ∧
    ((∀ j, j < n → outcomes j = AttemptOutcome.transportError) →
      send_metrics outcomes n = (false, n)) ∧
    (∀ k, k < n → (∀ j, j < k → outcomes j = AttemptOutcome.transportError) →
      outcomes k = AttemptOutcome.localError → send_metrics outcomes n = (false, k)) := by
  refine ⟨sendMetricsLoop_le outcomes n 0, ?_, ?_, ?_⟩
  · intro k hk hj hs
    refine sendMetricsLoop_success outcomes k 0 n hk ?_ ?_
    · intro j hjk
      rw [Nat.zero_add]
      exact hj j hjk
    · rw [Nat.zero_add]
      exact hs
  · intro hj
    refine sendMetricsLoop_allFail outcomes n 0 ?_
    intro j hjn
    rw [Nat.zero_add]
    exact hj j hjn
  · intro k hk hj hs
    refine sendMetricsLoop_local outcomes k 0 n hk ?_ ?_
    · intro j hjk
      rw [Nat.zero_add]
      exact hj j hjk
    · rw [Nat.zero_add]
      exact hs

theorem send_metrics_retry_spec_witness :
    send_metrics outcomesSucceedAt3 3 = (true, 3) ∧
    send_metrics outcomesAllFail 3 = (false, 3) ∧
    send_metrics outcomesLocalFirst 3 = (false, 0) := by
  refine ⟨?_, ?_, ?_⟩
  · exact (send_metrics_retry_spec outcomesSucceedAt3 3).2.1 2 (by decide) (by decide) (by decide)
  · exact (send_metrics_retry_spec outcomesAllFail 3).2.2.1 (by decide)
  · exact (send_metrics_retry_spec outcomesLocalFirst 3).2.2.2 0 (by decide) (by decide) (by decide)

/-- Claim C3: `store_metrics` is all-or-nothing: on any failure
(serialization or write) it returns `False` and the persisted rows are
exactly the prior ones; on success it returns `True` and exactly one
new row (the projection of the payload, with the next monotonic id) has
been appended. -/
theorem store_metrics_all_or_nothing (serOk insertOk : Bool) (db : DbState)
    (p : MetricsPayload) :
    store_metrics serOk insertOk db p =
      if serOk && insertOk then
        (true, { rows := db.rows ++ [rowOfPayload db.nextId p], nextId := db.nextId + 1 })
      else (false, db) := by
  cases serOk <;> cases insertOk <;>
    simp [store_metrics, connExecInsert, connCommit, connRollback]

/-- Claim C4: when a metric family's threshold and the snapshot field
(with its percent value) are both present, `check_alerts` fires for
that family iff percent strictly exceeds the threshold — equality does
not fire. -/
theorem check_alerts_strict_threshold (th : Thresholds) (m : Snapshot) :
    (∀ t c p, th.cpu = some t → m.cpu = some c → c.percent = some p →
      (AlertEvent.cpu p t ∈ check_alerts true th m ↔ p > t)) ∧
    (∀ t b p, th.memory = some t → m.memory = some b → b.percent = some p →
      (AlertEvent.memory p t ∈ check_alerts true th m ↔ p > t)) ∧
    (∀ t b p, th.swap = some t → m.swap = some b → b.percent = some p →
      (AlertEvent.swap p t ∈ check_alerts true th m ↔ p > t)) ∧
    (∀ t ds d p, th.disk = some t → m.disk = some ds → d ∈ ds → d.percent = some p →
      (AlertEvent.disk d.mountpoint p t ∈ check_alerts true th m ↔ p > t)) := by
  refine ⟨?_, ?_, ?_, ?_⟩
  · intro t c p ht hc hp
    rw [mem_check_alerts_cpu]
    unfold cpuAlerts
    rw [ht, hc]
    dsimp only
    rw [hp]
    simp only [Option.getD_some]
    by_cases hgt : p > t <;> simp [hgt]
  · intro t b p ht hb hp
    rw [mem_check_alerts_memory]
    unfold memoryAlerts
    rw [ht, hb]
    dsimp only
    rw [hp]
    simp only [Option.getD_some]
    by_cases hgt : p > t <;> simp [hgt]
  · intro t b p ht hb hp
    rw [mem_check_alerts_swap]
    unfold swapAlerts
    rw [ht, hb]
    dsimp only
    rw [hp]
    simp only [Option.getD_some]
    by_cases hgt : p > t <;> simp [hgt]
  · intro t ds d p ht hd hmem hp
    rw [mem_check_alerts_disk]
    unfold diskAlertsOf
    rw [ht, hd]
    dsimp only
    constructor
    · intro h
      exact (gt_of_mem_diskAlerts h).2
    · intro hgt
      exact mem_diskAlerts_of_over hmem hp hgt

theorem check_alerts_strict_threshold_witness :
    (AlertEvent.cpu 85 80 ∈ check_alerts true th0 m0 ↔ (85 : ℚ) > 80) ∧
    (AlertEvent.memory 80 80 ∈ check_alerts true th0 m0 ↔ (80 : ℚ) > 80) ∧
    (AlertEvent.swap 10 80 ∈ check_alerts true th0 m0 ↔ (10 : ℚ) > 80) := by
  refine ⟨?_, ?_, ?_⟩
  · exact (check_alerts_strict_threshold th0 m0).1 80 { percent := some 85 } 85 rfl rfl rfl
  · exact (check_alerts_strict_threshold th0 m0).2.1 80 { percent := some 80 } 80 rfl rfl rfl
  · exact (check_alerts_strict_threshold th0 m0).2.2.1 80 { percent := some 10 } 10 rfl rfl rfl

/-- Claim C5: disk evaluation is per mount: with the disk threshold and
disk list present, a mount's alert is emitted iff that mount's percent
exceeds the threshold, and the number of disk alerts equals the number
of over-threshold mounts — exactly one alert per over-threshold mount,
none for the others. -/
theorem check_alerts_disk_per_mount (th : Thresholds) (m : Snapshot) (t : ℚ)
    (ds : List DiskEntry) (ht : th.disk = some t) (hd : m.disk = some ds) :
    (∀ d ∈ ds, ∀ p, d.percent = some p →
      (AlertEvent.disk d.mountpoint p t ∈ check_alerts true th m ↔ p > t)) ∧
    (check_alerts true th m).countP AlertEvent.isDisk = ds.countP (overThreshold t) := by
  constructor
  · intro d hmem p hp
    rw [mem_check_alerts_disk]
    unfold diskAlertsOf
    rw [ht, hd]
    dsimp only
    constructor
    · intro h
      exact (gt_of_mem_diskAlerts h).2
    · intro hgt
      exact mem_diskAlerts_of_over hmem hp hgt
  · rw [check_alerts_true]
    simp only [List.countP_append]
    rw [countP_isDisk_cpuAlerts, countP_isDisk_memoryAlerts, countP_isDisk_swapAlerts]
    unfold diskAlertsOf
    rw [ht, hd]
    dsimp only
    rw [countP_diskAlerts]
    omega

theorem check_alerts_disk_per_mount_witness :
    (AlertEvent.disk "/" 95 90 ∈ check_alerts true th0 m0 ↔ (95 : ℚ) > 90) ∧
    (check_alerts true th0 m0).countP AlertEvent.isDisk =
      [DiskEntry.mk "/" (some 95), DiskEntry.mk "/home" (some 50)].countP (overThreshold 90) := by
  have h := check_alerts_disk_per_mount th0 m0 90
    [DiskEntry.mk "/" (some 95), DiskEntry.mk "/home" (some 50)] rfl rfl
  exact ⟨h.1 (DiskEntry.mk "/" (some 95)) (by simp) 95 rfl, h.2⟩

/-- Claim C6: when not suppressed by cooldown, `send_alert` attempts
every configured (known) channel regardless of other channels' send
failures, records the firing time in the cooldown history regardless of
delivery outcome, and returns true iff no attempted channel send
failed. -/
theorem send_alert_channel_isolation (cd : ℚ) (channels : List Channel)
    (ok : Channel → Bool) (hist : List (String × ℚ)) (alert_type hostname : String)
    (now : ℚ) (h0 : is_in_cooldown cd hist alert_type hostname now = false) :
    (send_alert cd channels ok hist alert_type hostname now).attempted =
      channels.filter channelKnown ∧
    (send_alert cd channels ok hist alert_type hostname now).history =
      histInsert hist (dedupKey hostname alert_type) now ∧
    ((send_alert cd channels ok hist alert_type hostname now).success = true ↔
      ∀ c ∈ channels.filter channelKnown, ok c = true) := by
  rw [send_alert_fires cd channels ok hist alert_type hostname now h0, foldl_routeStep]
  dsimp only
  refine ⟨by simp, rfl, ?_⟩
  rw [Bool.true_and, List.all_eq_true]

theorem send_alert_channel_isolation_witness :
    (send_alert 5 [Channel.log, Channel.slack, Channel.email] chanOkNoSlack []
        "disk_high" "host-a" 0).attempted =
      [Channel.log, Channel.slack, Channel.email].filter channelKnown ∧
    (send_alert 5 [Channel.log, Channel.slack, Channel.email] chanOkNoSlack []
        "disk_high" "host-a" 0).history =
      histInsert [] (dedupKey "host-a" "disk_high") 0 ∧
    ((send_alert 5 [Channel.log, Channel.slack, Channel.email] chanOkNoSlack []
        "disk_high" "host-a" 0).success = true ↔
      ∀ c ∈ [Channel.log, Channel.slack, Channel.email].filter channelKnown,
        chanOkNoSlack c = true) :=
  send_alert_channel_isolation 5 [Channel.log, Channel.slack, Channel.email]
    chanOkNoSlack [] "disk_high" "host-a" 0 (by decide)

/-- Claim C7: the end-of-cycle sleep is `max(0, T - elapsed)`: any
slept duration equals that value; when the cycle's work kept `elapsed`
below `T` the scheduler sleeps the remainder; when `elapsed ≥ T` it
skips sleeping and emits the drift warning instead, so the next cycle
starts immediately. -/
theorem run_cycle_sleep_spec (T elapsed : ℚ) :
    (∀ d, cycle_end T elapsed = CycleEnd.slept d → d = max 0 (T - elapsed)) ∧
    (elapsed < T → cycle_end T elapsed = CycleEnd.slept (T - elapsed)) ∧
    (T ≤ elapsed → cycle_end T elapsed = CycleEnd.warned) := by
  refine ⟨?_, ?_, ?_⟩
  · intro d hd
    unfold cycle_end at hd
    split at hd
    · injection hd with h
      rw [← h]
      rfl
    · simp at hd
  · intro h
    have hp : sleep_time T elapsed > 0 := by
      unfold sleep_time
      exact lt_max_of_lt_right (by linarith)
    have he : sleep_time T elapsed = T - elapsed := by
      unfold sleep_time
      exact max_eq_right (by linarith)
    unfold cycle_end
    rw [if_pos hp, he]
  · intro h
    have hz : sleep_time T elapsed = 0 := by
      unfold sleep_time
      exact max_eq_left (by linarith)
    unfold cycle_end
    rw [hz]
    simp

theorem run_cycle_sleep_spec_witness :
    cycle_end 10 4 = CycleEnd.slept (10 - 4) ∧ cycle_end 10 12 = CycleEnd.warned :=
  ⟨(run_cycle_sleep_spec 10 4).2.1 (by norm_num),
   (run_cycle_sleep_spec 10 12).2.2 (by norm_num)⟩

/-- Claim C8: a payload that fails the pydantic field validation is
rejected with the 422 client-error status, the endpoint body (and so
the store) is never invoked, and no row is persisted. -/
theorem ingest_rejects_invalid_payload (parseTs : String → Bool) (serOk insertOk : Bool)
    (db : DbState) (p : MetricsPayload) (h : validPayload parseTs p = false) :
    (ingest_endpoint parseTs serOk insertOk db p).status = 422 ∧
    400 ≤ (ingest_endpoint parseTs serOk insertOk db p).status ∧
    (ingest_endpoint parseTs serOk insertOk db p).status < 500 ∧
    (ingest_endpoint parseTs serOk insertOk db p).storeInvoked = false ∧
    (ingest_endpoint parseTs serOk insertOk db p).db = db := by
  unfold ingest_endpoint
  rw [h]
  norm_num

theorem ingest_rejects_invalid_payload_witness :
    (ingest_endpoint parseTsAlways true true sampleDb samplePayloadInvalid).status = 422 ∧
    400 ≤ (ingest_endpoint parseTsAlways true true sampleDb samplePayloadInvalid).status ∧
    (ingest_endpoint parseTsAlways true true sampleDb samplePayloadInvalid).status < 500 ∧
    (ingest_endpoint parseTsAlways true true sampleDb samplePayloadInvalid).storeInvoked = false ∧
    (ingest_endpoint parseTsAlways true true sampleDb samplePayloadInvalid).db = sampleDb :=
  ingest_rejects_invalid_payload parseTsAlways true true sampleDb samplePayloadInvalid
    (by decide)

/-- Claim C9: a missing threshold key or a missing snapshot field makes
`check_alerts` silently skip that family: no alert of that family is
emitted and (being a total function) no error is raised. -/
theorem check_alerts_skips_missing (th : Thresholds) (m : Snapshot) :
    ((th.cpu = none ∨ m.cpu = none) →
      ∀ p t, AlertEvent.cpu p t ∉ check_alerts true th m) ∧
    ((th.memory = none ∨ m.memory = none) →
      ∀ p t, AlertEvent.memory p t ∉ check_alerts true th m) ∧
    ((th.swap = none ∨ m.swap = none) →
      ∀ p t, AlertEvent.swap p t ∉ check_alerts true th m) ∧
    ((th.disk = none ∨ m.disk = none) →
      ∀ mp p t, AlertEvent.disk mp p t ∉ check_alerts true th m) := by
  refine ⟨?_, ?_, ?_, ?_⟩
  · intro h p t hmem
    rw [mem_check_alerts_cpu] at hmem
    unfold cpuAlerts at hmem
    rcases hth : th.cpu with _ | tv <;> rcases hmc : m.cpu with _ | cv <;>
      rw [hth, hmc] at hmem <;> simp_all
  · intro h p t hmem
    rw [mem_check_alerts_memory] at hmem
    unfold memoryAlerts at hmem
    rcases hth : th.memory with _ | tv <;> rcases hmc : m.memory with _ | bv <;>
      rw [hth, hmc] at hmem <;> simp_all
  · intro h p t hmem
    rw [mem_check_alerts_swap] at hmem
    unfold swapAlerts at hmem
    rcases hth : th.swap with _ | tv <;> rcases hmc : m.swap with _ | bv <;>
      rw [hth, hmc] at hmem <;> simp_all
  · intro h mp p t hmem
    rw [mem_check_alerts_disk] at hmem
    unfold diskAlertsOf at hmem
    rcases hth : th.disk with _ | tv <;> rcases hmc : m.disk with _ | dv <;>
      rw [hth, hmc] at hmem <;> simp_all

theorem check_alerts_skips_missing_witness :
    AlertEvent.cpu 95 80 ∉ check_alerts true thNone m0 ∧
    AlertEvent.memory 95 80 ∉ check_alerts true thNone m0 ∧
    AlertEvent.swap 95 80 ∉ check_alerts true thNone m0 ∧
    AlertEvent.disk "/" 95 80 ∉ check_alerts true thNone m0 := by
  have h := check_alerts_skips_missing thNone m0
  exact ⟨h.1 (Or.inl rfl) 95 80, h.2.1 (Or.inl rfl) 95 80,
    h.2.2.1 (Or.inl rfl) 95 80, h.2.2.2 (Or.inl rfl) "/" 95 80⟩

/-- Claim C10: for a payload that passes validation but whose store
operation fails, the endpoint responds with HTTP 400: the internally
raised 500 `HTTPException` is caught by the endpoint's generic
`except Exception` handler and re-raised as a 400 client-error
status. -/
theorem ingest_store_failure_reported_400 (parseTs : String → Bool)
    (serOk insertOk : Bool) (db : DbState) (p : MetricsPayload)
    (hv : validPayload parseTs p = true)
    (hs : (store_metrics serOk insertOk db p).1 = false) :
    (ingest_endpoint parseTs serOk insertOk db p).status = 400 := by
  unfold ingest_endpoint ingest_metrics ingest_body
  rw [hv]
  dsimp only
  rw [hs]
  rfl

theorem ingest_store_failure_reported_400_witness :
    validPayload parseTsAlways samplePayloadValid = true ∧
    (ingest_endpoint parseTsAlways false true sampleDb samplePayloadValid).status = 400 :=
  ⟨by decide,
   ingest_store_failure_reported_400 parseTsAlways false true sampleDb samplePayloadValid
     (by decide) (by decide)⟩

end Metrics
